import Mathlib

/-!
Formal model of the telemetry core of `src/mine_armour_dashboard.py`:
the class `SensorDataManager` (lines 37-746) — an in-memory bounded
multi-channel time-series store — and the class `MQTTClient`
(lines 748-826) — the ingestion client whose callbacks decode inbound
messages and feed the store.

Modelling conventions (a shallow embedding of the Python code):

* JSON numbers are modelled as rationals (`ℚ`).  Python compares `int`
  and `float` by value (`-1 == -1.0` is true), which `ℚ` reproduces.
* A decoded JSON object is an association list `List (String × ℚ)`;
  `dict.get(key, default)` is `dget`.
* `collections.deque(maxlen = m)` holding values of type `α` is a
  `List α` whose append is `dequeAppend`: push on the right, evict from
  the left whenever the length would exceed `m`.
* `datetime.now()` is modelled by an explicit `Nat` timestamp argument;
  a run of successive `add_gas_data` calls uses the append index as its
  timestamp (successive wall-clock readings, assumed distinct).
* Python `None` stored in a series is `Option.none`; the series that can
  hold it (`heartRate`, `spo2`, `temperature`, `humidity`) are
  `List (Option ℚ)`, the others only ever receive numbers and are
  `List ℚ`.
* The `'latest'` dicts have a value-key set that changes at runtime
  (the gas one gains ten keys on the first append), so they are
  modelled as association lists `List (String × LVal)` where `LVal`
  is a number, a timestamp, or `None`.
-/

namespace MineArmour

/-- Numeric JSON values (Python int/float compared by value). -/
abbrev JNum := ℚ

/-- A decoded JSON object: association list of field name to number. -/
abbrev RawData := List (String × JNum)

/-- Python `data.get(key, default)` on a decoded JSON object. -/
def dget (data : RawData) (key : String) (dflt : JNum) : JNum :=
  (data.lookup key).getD dflt

/-- `collections.deque(maxlen)` right-append: the new element goes on the
right and, when the length would exceed `maxlen`, the oldest (leftmost)
elements are evicted. -/
def dequeAppend {α : Type} (maxlen : Nat) (xs : List α) (x : α) : List α :=
  (xs ++ [x]).drop (xs.length + 1 - maxlen)

/-- A value stored in a `'latest'` dict: a number, an ingestion
timestamp (`datetime` in the source), or Python `None`. -/
inductive LVal where
  | num (q : JNum)
  | time (t : Nat)
  | null
deriving DecidableEq

/-- A `'latest'` record: a Python dict from field name to value. -/
abbrev Latest := List (String × LVal)

/-- The `'gas_sensors'` group dict (source lines 601-617): a shared
`timestamps` deque, one deque per gas series, and a `'latest'` dict. -/
structure GasGroup where
  timestamps : List Nat
  LPG : List JNum
  CH4 : List JNum
  Propane : List JNum
  Butane : List JNum
  H2 : List JNum
  latest : Latest
deriving DecidableEq

/-- The `'health_sensors'` group dict (source lines 618-624): note that
the source creates it with NO `'latest'` key. -/
structure HealthGroup where
  timestamps : List Nat
  heartRate : List (Option JNum)
  spo2 : List (Option JNum)
  GSR : List JNum
  stress : List JNum
deriving DecidableEq

/-- The `'environmental_sensors'` group dict (source lines 625-629):
also created with NO `'latest'` key. -/
structure EnvironmentalGroup where
  timestamps : List Nat
  temperature : List (Option JNum)
  humidity : List (Option JNum)
deriving DecidableEq

/-- The `'gps_data'` group dict (source lines 630-643). -/
structure GpsGroup where
  timestamps : List Nat
  lat : List JNum
  lon : List JNum
  alt : List JNum
  sat : List JNum
  latest : Latest
deriving DecidableEq

/-- The state of a `SensorDataManager` instance: capacity plus the four
channel-group dicts (the `threading.Lock` serialises access and carries
no state of its own). -/
structure SensorDataManager where
  max_points : Nat
  gas_sensors : GasGroup
  health_sensors : HealthGroup
  environmental_sensors : EnvironmentalGroup
  gps_data : GpsGroup
deriving DecidableEq

/-- `SensorDataManager.__init__` (source lines 599-644); the Python
default for `max_points` is 100.  All deques start empty; the gas group's
`'latest'` dict maps the five gas fields to `0` and `'timestamp'` to
`None`; the gps group's `'latest'` maps its four fields to `0`; the
health and environmental dicts are created without a `'latest'` key. -/
def SensorDataManager.init (max_points : Nat) : SensorDataManager where
  max_points := max_points
  gas_sensors :=
    { timestamps := []
      LPG := []
      CH4 := []
      Propane := []
      Butane := []
      H2 := []
      latest := [("LPG", .num 0), ("CH4", .num 0), ("Propane", .num 0),
                 ("Butane", .num 0), ("H2", .num 0), ("timestamp", .null)] }
  health_sensors :=
    { timestamps := [], heartRate := [], spo2 := [], GSR := [], stress := [] }
  environmental_sensors :=
    { timestamps := [], temperature := [], humidity := [] }
  gps_data :=
    { timestamps := []
      lat := []
      lon := []
      alt := []
      sat := []
      latest := [("lat", .num 0), ("lon", .num 0), ("alt", .num 0), ("sat", .num 0)] }

/-- `SensorDataManager.add_gas_data` (source lines 646-726).  One call
appends the same `timestamp` and the decoded per-field values to all four
groups' deques.  The Python local variables (`lpg = data.get('LPG', 0)`,
…) are inlined at their use sites.  The `heartRate`/`spo2` entries are
`x if x != -1 else None` and the `temperature`/`humidity` entries are
`x if x != -1.0 else None`, exactly as in the source; every other series
receives the raw value.  The gas group's `'latest'` dict is rebound to a
fresh dict holding the raw values of ALL fields plus the timestamp
(lines 700-717), and the gps `'latest'` to the four raw gps fields
(lines 719-725); the health and environmental groups get no latest. -/
def add_gas_data (s : SensorDataManager) (timestamp : Nat) (data : RawData) :
    SensorDataManager where
  max_points := s.max_points
  gas_sensors :=
    { timestamps := dequeAppend s.max_points s.gas_sensors.timestamps timestamp
      LPG := dequeAppend s.max_points s.gas_sensors.LPG (dget data "LPG" 0)
      CH4 := dequeAppend s.max_points s.gas_sensors.CH4 (dget data "CH4" 0)
      Propane := dequeAppend s.max_points s.gas_sensors.Propane (dget data "Propane" 0)
      Butane := dequeAppend s.max_points s.gas_sensors.Butane (dget data "Butane" 0)
      H2 := dequeAppend s.max_points s.gas_sensors.H2 (dget data "H2" 0)
      latest := [("LPG", .num (dget data "LPG" 0)),
                 ("CH4", .num (dget data "CH4" 0)),
                 ("Propane", .num (dget data "Propane" 0)),
                 ("Butane", .num (dget data "Butane" 0)),
                 ("H2", .num (dget data "H2" 0)),
                 ("heartRate", .num (dget data "heartRate" (-1))),
                 ("spo2", .num (dget data "spo2" (-1))),
                 ("temperature", .num (dget data "temperature" (-1))),
                 ("humidity", .num (dget data "humidity" (-1))),
                 ("GSR", .num (dget data "GSR" 0)),
                 ("stress", .num (dget data "stress" 0)),
                 ("lat", .num (dget data "lat" 0)),
                 ("lon", .num (dget data "lon" 0)),
                 ("alt", .num (dget data "alt" 0)),
                 ("sat", .num (dget data "sat" 0)),
                 ("timestamp", .time timestamp)] }
  health_sensors :=
    { timestamps := dequeAppend s.max_points s.health_sensors.timestamps timestamp
      heartRate := dequeAppend s.max_points s.health_sensors.heartRate
        (if dget data "heartRate" (-1) ≠ -1 then some (dget data "heartRate" (-1)) else none)
      spo2 := dequeAppend s.max_points s.health_sensors.spo2
        (if dget data "spo2" (-1) ≠ -1 then some (dget data "spo2" (-1)) else none)
      GSR := dequeAppend s.max_points s.health_sensors.GSR (dget data "GSR" 0)
      stress := dequeAppend s.max_points s.health_sensors.stress (dget data "stress" 0) }
  environmental_sensors :=
    { timestamps := dequeAppend s.max_points s.environmental_sensors.timestamps timestamp
      temperature := dequeAppend s.max_points s.environmental_sensors.temperature
        (if dget data "temperature" (-1) ≠ -1 then some (dget data "temperature" (-1)) else none)
      humidity := dequeAppend s.max_points s.environmental_sensors.humidity
        (if dget data "humidity" (-1) ≠ -1 then some (dget data "humidity" (-1)) else none) }
  gps_data :=
    { timestamps := dequeAppend s.max_points s.gps_data.timestamps timestamp
      lat := dequeAppend s.max_points s.gps_data.lat (dget data "lat" 0)
      lon := dequeAppend s.max_points s.gps_data.lon (dget data "lon" 0)
      alt := dequeAppend s.max_points s.gps_data.alt (dget data "alt" 0)
      sat := dequeAppend s.max_points s.gps_data.sat (dget data "sat" 0)
      latest := [("lat", .num (dget data "lat" 0)),
                 ("lon", .num (dget data "lon" 0)),
                 ("alt", .num (dget data "alt" 0)),
                 ("sat", .num (dget data "sat" 0))] }

/-- The four channel groups of the store. -/
inductive GroupName where
  | gas
  | health
  | environmental
  | gps
deriving DecidableEq

/-- The `'latest'` entry of a group's dict, when the dict has one.  The
source creates a `'latest'` key only in `'gas_sensors'` and `'gps_data'`
(lines 610-617 and 636-642); the `'health_sensors'` and
`'environmental_sensors'` dicts are built without one and no statement in
the class ever adds such a key to them. -/
def groupLatest (s : SensorDataManager) : GroupName → Option Latest
  | .gas => some s.gas_sensors.latest
  | .health => none
  | .environmental => none
  | .gps => some s.gps_data.latest

/-!
Snapshot reads.  `get_gas_data` (source lines 728-731) executes
`return self.data['gas_sensors'].copy()` under the lock — and `dict.copy()`
is a SHALLOW copy: the returned dict is a fresh top-level dict whose
values are the very same objects held by the store.  Consequences,
faithful to Python object semantics:

* the series values are the store's live `deque` objects; the store
  never rebinds those keys, so reading a series through the snapshot at
  a later time shows the deque's contents at THAT later time;
* the `'latest'` value is the dict object current at copy time;
  `add_gas_data` replaces (`['latest'] = {...}`, line 700/719) rather
  than mutates that object, so the snapshot's `'latest'` stays frozen
  at its copy-time contents.

We therefore model the contents of the returned snapshot as observed at
a later moment by a function of two store states: `snapAt`, the state
when the copy was taken (fixing `'latest'`), and `cur`, the state when
the snapshot is read (fixing the shared series deques).  Reading the
snapshot immediately is the `cur = snapAt` instance.  The same applies
to `get_health_data`, `get_environmental_data` and `get_gps_data`
(lines 733-746), except that the health/environmental dicts have no
`'latest'` key to copy.
-/

/-- Observable contents of a `get_gas_data()` result. -/
structure GasView where
  timestamps : List Nat
  LPG : List JNum
  CH4 : List JNum
  Propane : List JNum
  Butane : List JNum
  H2 : List JNum
  latest : Latest
deriving DecidableEq

/-- Observable contents of a `get_health_data()` result (no `'latest'`). -/
structure HealthView where
  timestamps : List Nat
  heartRate : List (Option JNum)
  spo2 : List (Option JNum)
  GSR : List JNum
  stress : List JNum
deriving DecidableEq

/-- Observable contents of a `get_environmental_data()` result. -/
structure EnvironmentalView where
  timestamps : List Nat
  temperature : List (Option JNum)
  humidity : List (Option JNum)
deriving DecidableEq

/-- Observable contents of a `get_gps_data()` result. -/
structure GpsView where
  timestamps : List Nat
  lat : List JNum
  lon : List JNum
  alt : List JNum
  sat : List JNum
  latest : Latest
deriving DecidableEq

/-- Contents of the dict returned by `get_gas_data` (source line 728-731,
`self.data['gas_sensors'].copy()`), as observed when the store has
evolved to state `cur` since the copy was taken at state `snapAt`:
series through the aliased deques (live state), `'latest'` from the
copy-time dict object. -/
def get_gas_data_view (snapAt cur : SensorDataManager) : GasView where
  timestamps := cur.gas_sensors.timestamps
  LPG := cur.gas_sensors.LPG
  CH4 := cur.gas_sensors.CH4
  Propane := cur.gas_sensors.Propane
  Butane := cur.gas_sensors.Butane
  H2 := cur.gas_sensors.H2
  latest := snapAt.gas_sensors.latest

/-- Contents of the dict returned by `get_health_data` (source lines
733-736), read at state `cur` for a copy taken at `snapAt`; the health
dict has no `'latest'` key, so nothing in it is copy-time data. -/
def get_health_data_view (_snapAt cur : SensorDataManager) : HealthView where
  timestamps := cur.health_sensors.timestamps
  heartRate := cur.health_sensors.heartRate
  spo2 := cur.health_sensors.spo2
  GSR := cur.health_sensors.GSR
  stress := cur.health_sensors.stress

/-- Contents of the dict returned by `get_environmental_data` (source
lines 738-741), read at state `cur` for a copy taken at `snapAt`. -/
def get_environmental_data_view (_snapAt cur : SensorDataManager) : EnvironmentalView where
  timestamps := cur.environmental_sensors.timestamps
  temperature := cur.environmental_sensors.temperature
  humidity := cur.environmental_sensors.humidity

/-- Contents of the dict returned by `get_gps_data` (source lines
743-746), read at state `cur` for a copy taken at `snapAt`. -/
def get_gps_data_view (snapAt cur : SensorDataManager) : GpsView where
  timestamps := cur.gps_data.timestamps
  lat := cur.gps_data.lat
  lon := cur.gps_data.lon
  alt := cur.gps_data.alt
  sat := cur.gps_data.sat
  latest := snapAt.gps_data.latest

/-!
The ingestion client `MQTTClient` (source lines 748-826).  Its own state
is the `connected` flag (set in `__init__`, line 754) and the fixed
subscription topic `gas_topic = "LOKI_2004"` (line 763).  The broker
transport is external; its callbacks are modelled as pure transition
functions on the client/store state.
-/

/-- State owned by `MQTTClient`: the `connected` flag and the topic. -/
structure MQTTClient where
  connected : Bool
  gas_topic : String
deriving DecidableEq

/-- `MQTTClient.__init__` (source lines 751-763): `connected = False`,
`gas_topic = "LOKI_2004"`. -/
def MQTTClient.initClient : MQTTClient where
  connected := false
  gas_topic := "LOKI_2004"

/-- `on_connect` (source lines 765-773): on result code 0, set
`connected = True` and subscribe to the topic; otherwise log the failure
and return — `connected` is not assigned and nothing is raised.  The
boolean result records whether `client.subscribe` was called. -/
def on_connect (c : MQTTClient) (rc : Nat) : MQTTClient × Bool :=
  if rc = 0 then ({ c with connected := true }, true) else (c, false)

/-- `on_disconnect` (source lines 789-791): set `connected = False` and
log; nothing else. -/
def on_disconnect (c : MQTTClient) : MQTTClient where
  connected := false
  gas_topic := c.gas_topic

/-- Outcome of `message.payload.decode('utf-8')` followed by
`json.loads(payload)` on an inbound message: either some exception text
(UTF-8 decode error or JSON parse error) or the decoded object. -/
inductive DecodeResult where
  | failure (err : String)
  | success (data : RawData)
deriving DecidableEq

/-- `on_message` (source lines 775-787).  The whole body runs inside
`try: ... except Exception as e: logging.error(...)`, so a decode or
parse failure reaches the `except` branch: the message is logged and
dropped, the store is not touched, and the handler returns normally.  On
success, if the topic is the subscribed one the decoded data is appended
via `add_gas_data`.  The boolean result records that the handler
returned without propagating an exception (so the paho receive loop
continues); it is `true` on every path. -/
def on_message (c : MQTTClient) (store : SensorDataManager) (timestamp : Nat)
    (topic : String) (payload : DecodeResult) : SensorDataManager × Bool :=
  match payload with
  | .failure _ => (store, true)
  | .success data =>
      if topic = c.gas_topic then (add_gas_data store timestamp data, true)
      else (store, true)

/-- External events that drive the client's callbacks. -/
inductive MqttEvent where
  | connectAck (rc : Nat)
  | transportDisconnect
  | message (topic : String) (payload : DecodeResult)
deriving DecidableEq

/-- Effect of one callback invocation on the client's own state: the
`CONNACK` result dispatches to `on_connect`, a transport-level
disconnect to `on_disconnect`; `on_message` never assigns
`self.connected` (lines 775-787), so a message event leaves the client
state unchanged. -/
def clientStep (c : MQTTClient) : MqttEvent → MQTTClient
  | .connectAck rc => (on_connect c rc).1
  | .transportDisconnect => on_disconnect c
  | .message _ _ => c

/-- A run of sequential `add_gas_data` calls: message `i` of the batch
is ingested with timestamp `t0 + i` (successive `datetime.now()` values,
modelled as the append index). -/
def runFrom : SensorDataManager → Nat → List RawData → SensorDataManager
  | s, _, [] => s
  | s, t0, d :: ds => runFrom (add_gas_data s t0 d) (t0 + 1) ds

/-- The store obtained from a fresh `SensorDataManager(max_points = m)`
after ingesting the batch `ds`, message `i` carrying timestamp `i`. -/
def runAppends (m : Nat) (ds : List RawData) : SensorDataManager :=
  runFrom (SensorDataManager.init m) 0 ds

/-! Helper lemmas about `dequeAppend` and runs of appends. -/

theorem dequeAppend_length {α : Type} (m : Nat) (xs : List α) (x : α) :
    (dequeAppend m xs x).length = min (xs.length + 1) m := by
  simp only [dequeAppend, List.length_drop, List.length_append, List.length_singleton]
  omega

theorem dequeAppend_getLast {α : Type} (m : Nat) (hm : 0 < m) (xs : List α) (x : α) :
    (dequeAppend m xs x).getLast? = some x := by
  unfold dequeAppend
  rw [List.drop_append_of_le_length (by omega)]
  exact List.getLast?_concat _

theorem foldl_dequeAppend {α : Type} (m : Nat) (vs : List α) :
    ∀ xs : List α, xs.length ≤ m →
      List.foldl (dequeAppend m) xs vs = (xs ++ vs).drop (xs.length + vs.length - m) := by
  induction vs with
  | nil =>
      intro xs h
      simp [Nat.sub_eq_zero_of_le h]
  | cons v vs ih =>
      intro xs h
      rw [List.foldl_cons, ih (dequeAppend m xs v) (by rw [dequeAppend_length]; omega),
        dequeAppend_length]
      show (dequeAppend m xs v ++ vs).drop _ = _
      unfold dequeAppend
      rw [← @List.drop_append_of_le_length _ (xs ++ [v]) vs _ (by simp), List.drop_drop,
        List.append_assoc, List.singleton_append]
      congr 1
      simp only [List.length_cons]
      omega

@[simp]
theorem add_gas_data_max_points (s : SensorDataManager) (t : Nat) (d : RawData) :
    (add_gas_data s t d).max_points = s.max_points := rfl

@[simp]
theorem init_max_points (m : Nat) : (SensorDataManager.init m).max_points = m := rfl

/-- Every deque of the store evolves independently of the others: if the
getter `g` reads one deque and `v t d` is the value that
`add_gas_data _ t d` pushes into it, then a run of appends folds
`dequeAppend` over the pushed values (paired with their timestamps). -/
theorem runFrom_series {α : Type} (g : SensorDataManager → List α)
    (v : Nat → RawData → α)
    (hg : ∀ s t d, g (add_gas_data s t d) = dequeAppend s.max_points (g s) (v t d))
    (ds : List RawData) :
    ∀ (s : SensorDataManager) (t0 : Nat),
      g (runFrom s t0 ds)
        = List.foldl (dequeAppend s.max_points) (g s)
            (((List.range' t0 ds.length).zip ds).map fun p => v p.1 p.2) := by
  induction ds with
  | nil =>
      intro s t0
      simp [runFrom]
  | cons d ds ih =>
      intro s t0
      show g (runFrom (add_gas_data s t0 d) (t0 + 1) ds) = _
      rw [ih (add_gas_data s t0 d) (t0 + 1), hg, add_gas_data_max_points]
      simp [List.range'_succ]

theorem runAppends_series {α : Type} (g : SensorDataManager → List α)
    (v : Nat → RawData → α)
    (hg : ∀ s t d, g (add_gas_data s t d) = dequeAppend s.max_points (g s) (v t d))
    (hinit : ∀ m, g (SensorDataManager.init m) = [])
    (m : Nat) (ds : List RawData) :
    g (runAppends m ds)
      = (((List.range' 0 ds.length).zip ds).map fun p => v p.1 p.2).drop
          (ds.length - m) := by
  rw [runAppends, runFrom_series g v hg ds _ 0, hinit, init_max_points,
    foldl_dequeAppend m _ [] (by simp)]
  simp

theorem zip_map_fst (t0 : Nat) (ds : List RawData) :
    (((List.range' t0 ds.length).zip ds).map fun p => p.1) = List.range' t0 ds.length :=
  List.map_fst_zip _ _ (by simp)

theorem zip_map_snd {α : Type} (f : RawData → α) (t0 : Nat) (ds : List RawData) :
    (((List.range' t0 ds.length).zip ds).map fun p => f p.2) = ds.map f := by
  have h1 : ((List.range' t0 ds.length).zip ds).map Prod.snd = ds :=
    List.map_snd_zip _ _ (by simp)
  calc (((List.range' t0 ds.length).zip ds).map fun p => f p.2)
      = (((List.range' t0 ds.length).zip ds).map Prod.snd).map f := by
        rw [List.map_map]
        rfl
    _ = ds.map f := by rw [h1]

/-! Closed forms for every series of the store after ingesting a batch
`ds` into a fresh store of capacity `m`: each series is the suffix of
the pushed values that survives FIFO eviction, i.e. the list of all
pushed values with the oldest `ds.length - m` dropped. -/

theorem runAppends_series_time (g : SensorDataManager → List Nat)
    (hg : ∀ s t d, g (add_gas_data s t d) = dequeAppend s.max_points (g s) t)
    (hinit : ∀ m, g (SensorDataManager.init m) = [])
    (m : Nat) (ds : List RawData) :
    g (runAppends m ds) = (List.range ds.length).drop (ds.length - m) := by
  rw [runAppends_series g (fun t _ => t) hg hinit, zip_map_fst, ← List.range_eq_range']

theorem runAppends_series_value {α : Type} (g : SensorDataManager → List α)
    (f : RawData → α)
    (hg : ∀ s t d, g (add_gas_data s t d) = dequeAppend s.max_points (g s) (f d))
    (hinit : ∀ m, g (SensorDataManager.init m) = [])
    (m : Nat) (ds : List RawData) :
    g (runAppends m ds) = (ds.map f).drop (ds.length - m) := by
  rw [runAppends_series g (fun _ d => f d) hg hinit, zip_map_snd f]

theorem runAppends_gas_timestamps (m : Nat) (ds : List RawData) :
    (runAppends m ds).gas_sensors.timestamps
      = (List.range ds.length).drop (ds.length - m) :=
  runAppends_series_time (fun s => s.gas_sensors.timestamps)
    (fun _ _ _ => rfl) (fun _ => rfl) m ds

theorem runAppends_health_timestamps (m : Nat) (ds : List RawData) :
    (runAppends m ds).health_sensors.timestamps
      = (List.range ds.length).drop (ds.length - m) :=
  runAppends_series_time (fun s => s.health_sensors.timestamps)
    (fun _ _ _ => rfl) (fun _ => rfl) m ds

theorem runAppends_environmental_timestamps (m : Nat) (ds : List RawData) :
    (runAppends m ds).environmental_sensors.timestamps
      = (List.range ds.length).drop (ds.length - m) :=
  runAppends_series_time (fun s => s.environmental_sensors.timestamps)
    (fun _ _ _ => rfl) (fun _ => rfl) m ds

theorem runAppends_gps_timestamps (m : Nat) (ds : List RawData) :
    (runAppends m ds).gps_data.timestamps
      = (List.range ds.length).drop (ds.length - m) :=
  runAppends_series_time (fun s => s.gps_data.timestamps)
    (fun _ _ _ => rfl) (fun _ => rfl) m ds

theorem runAppends_gas_LPG (m : Nat) (ds : List RawData) :
    (runAppends m ds).gas_sensors.LPG
      = (ds.map fun d => dget d "LPG" 0).drop (ds.length - m) :=
  runAppends_series_value (fun s => s.gas_sensors.LPG) (fun d => dget d "LPG" 0)
    (fun _ _ _ => rfl) (fun _ => rfl) m ds

theorem runAppends_gas_CH4 (m : Nat) (ds : List RawData) :
    (runAppends m ds).gas_sensors.CH4
      = (ds.map fun d => dget d "CH4" 0).drop (ds.length - m) :=
  runAppends_series_value (fun s => s.gas_sensors.CH4) (fun d => dget d "CH4" 0)
    (fun _ _ _ => rfl) (fun _ => rfl) m ds

theorem runAppends_gas_Propane (m : Nat) (ds : List RawData) :
    (runAppends m ds).gas_sensors.Propane
      = (ds.map fun d => dget d "Propane" 0).drop (ds.length - m) :=
  runAppends_series_value (fun s => s.gas_sensors.Propane) (fun d => dget d "Propane" 0)
    (fun _ _ _ => rfl) (fun _ => rfl) m ds

theorem runAppends_gas_Butane (m : Nat) (ds : List RawData) :
    (runAppends m ds).gas_sensors.Butane
      = (ds.map fun d => dget d "Butane" 0).drop (ds.length - m) :=
  runAppends_series_value (fun s => s.gas_sensors.Butane) (fun d => dget d "Butane" 0)
    (fun _ _ _ => rfl) (fun _ => rfl) m ds

theorem runAppends_gas_H2 (m : Nat) (ds : List RawData) :
    (runAppends m ds).gas_sensors.H2
      = (ds.map fun d => dget d "H2" 0).drop (ds.length - m) :=
  runAppends_series_value (fun s => s.gas_sensors.H2) (fun d => dget d "H2" 0)
    (fun _ _ _ => rfl) (fun _ => rfl) m ds

theorem runAppends_health_heartRate (m : Nat) (ds : List RawData) :
    (runAppends m ds).health_sensors.heartRate
      = (ds.map fun d =>
          if dget d "heartRate" (-1) ≠ -1 then some (dget d "heartRate" (-1))
          else none).drop (ds.length - m) :=
  runAppends_series_value (fun s => s.health_sensors.heartRate)
    (fun d => if dget d "heartRate" (-1) ≠ -1 then some (dget d "heartRate" (-1)) else none)
    (fun _ _ _ => rfl) (fun _ => rfl) m ds

theorem runAppends_health_spo2 (m : Nat) (ds : List RawData) :
    (runAppends m ds).health_sensors.spo2
      = (ds.map fun d =>
          if dget d "spo2" (-1) ≠ -1 then some (dget d "spo2" (-1))
          else none).drop (ds.length - m) :=
  runAppends_series_value (fun s => s.health_sensors.spo2)
    (fun d => if dget d "spo2" (-1) ≠ -1 then some (dget d "spo2" (-1)) else none)
    (fun _ _ _ => rfl) (fun _ => rfl) m ds

theorem runAppends_health_GSR (m : Nat) (ds : List RawData) :
    (runAppends m ds).health_sensors.GSR
      = (ds.map fun d => dget d "GSR" 0).drop (ds.length - m) :=
  runAppends_series_value (fun s => s.health_sensors.GSR) (fun d => dget d "GSR" 0)
    (fun _ _ _ => rfl) (fun _ => rfl) m ds

theorem runAppends_health_stress (m : Nat) (ds : List RawData) :
    (runAppends m ds).health_sensors.stress
      = (ds.map fun d => dget d "stress" 0).drop (ds.length - m) :=
  runAppends_series_value (fun s => s.health_sensors.stress) (fun d => dget d "stress" 0)
    (fun _ _ _ => rfl) (fun _ => rfl) m ds

theorem runAppends_environmental_temperature (m : Nat) (ds : List RawData) :
    (runAppends m ds).environmental_sensors.temperature
      = (ds.map fun d =>
          if dget d "temperature" (-1) ≠ -1 then some (dget d "temperature" (-1))
          else none).drop (ds.length - m) :=
  runAppends_series_value (fun s => s.environmental_sensors.temperature)
    (fun d => if dget d "temperature" (-1) ≠ -1 then some (dget d "temperature" (-1)) else none)
    (fun _ _ _ => rfl) (fun _ => rfl) m ds

theorem runAppends_environmental_humidity (m : Nat) (ds : List RawData) :
    (runAppends m ds).environmental_sensors.humidity
      = (ds.map fun d =>
          if dget d "humidity" (-1) ≠ -1 then some (dget d "humidity" (-1))
          else none).drop (ds.length - m) :=
  runAppends_series_value (fun s => s.environmental_sensors.humidity)
    (fun d => if dget d "humidity" (-1) ≠ -1 then some (dget d "humidity" (-1)) else none)
    (fun _ _ _ => rfl) (fun _ => rfl) m ds

theorem runAppends_gps_lat (m : Nat) (ds : List RawData) :
    (runAppends m ds).gps_data.lat
      = (ds.map fun d => dget d "lat" 0).drop (ds.length - m) :=
  runAppends_series_value (fun s => s.gps_data.lat) (fun d => dget d "lat" 0)
    (fun _ _ _ => rfl) (fun _ => rfl) m ds

theorem runAppends_gps_lon (m : Nat) (ds : List RawData) :
    (runAppends m ds).gps_data.lon
      = (ds.map fun d => dget d "lon" 0).drop (ds.length - m) :=
  runAppends_series_value (fun s => s.gps_data.lon) (fun d => dget d "lon" 0)
    (fun _ _ _ => rfl) (fun _ => rfl) m ds

theorem runAppends_gps_alt (m : Nat) (ds : List RawData) :
    (runAppends m ds).gps_data.alt
      = (ds.map fun d => dget d "alt" 0).drop (ds.length - m) :=
  runAppends_series_value (fun s => s.gps_data.alt) (fun d => dget d "alt" 0)
    (fun _ _ _ => rfl) (fun _ => rfl) m ds

theorem runAppends_gps_sat (m : Nat) (ds : List RawData) :
    (runAppends m ds).gps_data.sat
      = (ds.map fun d => dget d "sat" 0).drop (ds.length - m) :=
  runAppends_series_value (fun s => s.gps_data.sat) (fun d => dget d "sat" 0)
    (fun _ _ _ => rfl) (fun _ => rfl) m ds

/-! Claim theorems. -/

/-- C10: before any append has been performed, a snapshot of any group
returns empty series and an empty timestamps sequence; the gas group's
latest record exists and maps LPG, CH4, Propane, Butane and H2 to 0 with
timestamp None; the gps group's latest record exists and maps lat, lon
and alt to 0.0 and sat to 0; the health and environmental groups expose
no latest record at all. -/
theorem initial_state_snapshot :
    get_gas_data_view (SensorDataManager.init 100) (SensorDataManager.init 100)
      = { timestamps := [], LPG := [], CH4 := [], Propane := [], Butane := [], H2 := []
          latest := [("LPG", .num 0), ("CH4", .num 0), ("Propane", .num 0),
                     ("Butane", .num 0), ("H2", .num 0), ("timestamp", .null)] }
  ∧ get_health_data_view (SensorDataManager.init 100) (SensorDataManager.init 100)
      = { timestamps := [], heartRate := [], spo2 := [], GSR := [], stress := [] }
  ∧ get_environmental_data_view (SensorDataManager.init 100) (SensorDataManager.init 100)
      = { timestamps := [], temperature := [], humidity := [] }
  ∧ get_gps_data_view (SensorDataManager.init 100) (SensorDataManager.init 100)
      = { timestamps := [], lat := [], lon := [], alt := [], sat := []
          latest := [("lat", .num 0), ("lon", .num 0), ("alt", .num 0), ("sat", .num 0)] }
  ∧ groupLatest (SensorDataManager.init 100) GroupName.health = none
  ∧ groupLatest (SensorDataManager.init 100) GroupName.environmental = none
  ∧ List.lookup "timestamp" (SensorDataManager.init 100).gas_sensors.latest
      = some LVal.null := by
  refine ⟨rfl, rfl, rfl, rfl, rfl, rfl, by decide⟩

/-- C6: when the message handler receives a payload that fails UTF-8
decoding or JSON parsing, the store's state is left entirely unchanged,
the message is discarded, and the handler returns normally so the
receive loop continues — a single malformed message never terminates the
subscription. -/
theorem malformed_message_resilience (c : MQTTClient) (store : SensorDataManager)
    (timestamp : Nat) (topic : String) (err : String) :
    on_message c store timestamp topic (DecodeResult.failure err) = (store, true) := rfl

/-- C7: the client's connection state starts Disconnected
(`connected = false`); a successful handshake (`rc = 0`) transitions it
to Connected; a failed handshake (`rc ≠ 0`) leaves the flag unchanged
(so a disconnected client stays Disconnected) without raising; a
transport-level disconnect forces Disconnected; and the only event that
can take a Disconnected client to Connected is a successful handshake —
no automatic reconnect transition exists. -/
theorem connection_state_machine (c : MQTTClient) (rc : Nat) (e : MqttEvent)
    (hrc : rc ≠ 0) :
    MQTTClient.initClient.connected = false
  ∧ (clientStep c (MqttEvent.connectAck 0)).connected = true
  ∧ (clientStep c (MqttEvent.connectAck rc)).connected = c.connected
  ∧ (clientStep c MqttEvent.transportDisconnect).connected = false
  ∧ (c.connected = false → (clientStep c e).connected = true
      → e = MqttEvent.connectAck 0) := by
  refine ⟨rfl, rfl, ?_, rfl, ?_⟩
  · simp [clientStep, on_connect, hrc]
  · intro hdis htrue
    cases e with
    | connectAck rc' =>
        by_cases h0 : rc' = 0
        · rw [h0]
        · exfalso
          simp [clientStep, on_connect, h0, hdis] at htrue
    | transportDisconnect =>
        exfalso
        simp [clientStep, on_disconnect] at htrue
    | message t p =>
        exfalso
        simp only [clientStep] at htrue
        rw [hdis] at htrue
        exact Bool.false_ne_true htrue

/-- Witness for C7 at a concrete client and event: a failed handshake
(`rc = 5`) on the freshly initialised client leaves it disconnected. -/
theorem connection_state_machine_witness :
    (clientStep MQTTClient.initClient (MqttEvent.connectAck 5)).connected = false := by
  have h := connection_state_machine MQTTClient.initClient 5
    MqttEvent.transportDisconnect (by decide)
  exact h.2.2.1.trans h.1

/-- C1 as stated is false: `get_gas_data` returns `dict.copy()`, a
shallow copy whose series values alias the store's live deques.  At a
concrete input — snapshot the gas group after one append, then perform
one more append — the observable contents of the already-returned
snapshot change (they now equal the post-append store, not the state at
the moment of the copy). -/
theorem snapshot_independence_counterexample :
    get_gas_data_view (add_gas_data (SensorDataManager.init 100) 0 [])
        (add_gas_data (add_gas_data (SensorDataManager.init 100) 0 []) 1 [])
      ≠ get_gas_data_view (add_gas_data (SensorDataManager.init 100) 0 [])
        (add_gas_data (SensorDataManager.init 100) 0 []) := by
  decide

/-- C1 (amended): each snapshot read returns a shallow copy.  Its
`latest` entry is independent — a later append replaces, rather than
mutates, the group's latest dict, so the snapshot keeps the copy-time
record — but the series entries are shared by reference with the live
store, so after a later append the snapshot's series (all groups) show
the appended state, not the state at the moment of the copy. -/
theorem snapshot_shallow_copy_contract (s : SensorDataManager) (now : Nat) (d : RawData) :
    (get_gas_data_view s (add_gas_data s now d)).latest = s.gas_sensors.latest
  ∧ (get_gps_data_view s (add_gas_data s now d)).latest = s.gps_data.latest
  ∧ (get_gas_data_view s (add_gas_data s now d)).timestamps
      = dequeAppend s.max_points s.gas_sensors.timestamps now
  ∧ (get_gas_data_view s (add_gas_data s now d)).LPG
      = dequeAppend s.max_points s.gas_sensors.LPG (dget d "LPG" 0)
  ∧ (get_health_data_view s (add_gas_data s now d)).timestamps
      = dequeAppend s.max_points s.health_sensors.timestamps now
  ∧ (get_health_data_view s (add_gas_data s now d)).heartRate
      = dequeAppend s.max_points s.health_sensors.heartRate
          (if dget d "heartRate" (-1) ≠ -1 then some (dget d "heartRate" (-1)) else none)
  ∧ (get_environmental_data_view s (add_gas_data s now d)).temperature
      = dequeAppend s.max_points s.environmental_sensors.temperature
          (if dget d "temperature" (-1) ≠ -1 then some (dget d "temperature" (-1)) else none)
  ∧ (get_gps_data_view s (add_gas_data s now d)).lat
      = dequeAppend s.max_points s.gps_data.lat (dget d "lat" 0) :=
  ⟨rfl, rfl, rfl, rfl, rfl, rfl, rfl, rfl⟩

/-- C2 as stated is false at a concrete input: after an append, the
health and environmental groups still hold no latest record at all, and
the gps group's latest record carries no ingestion timestamp. -/
theorem latest_record_counterexample :
    groupLatest (add_gas_data (SensorDataManager.init 100) 0 []) GroupName.health = none
  ∧ groupLatest (add_gas_data (SensorDataManager.init 100) 0 [])
      GroupName.environmental = none
  ∧ List.lookup "timestamp"
      (add_gas_data (SensorDataManager.init 100) 0 []).gps_data.latest = none :=
  ⟨rfl, rfl, by decide⟩

/-- C2 (amended): only the gas and gps groups hold latest records.
After every append the gas group's latest dict holds the raw decoded
values of ALL fields of all groups (sentinels included, no absence
normalization) together with the ingestion timestamp; the gps group's
latest holds the four raw gps fields without a timestamp; the health and
environmental groups hold no latest record. -/
theorem latest_records_contract (s : SensorDataManager) (now : Nat) (d : RawData) :
    (add_gas_data s now d).gas_sensors.latest
      = [("LPG", .num (dget d "LPG" 0)),
         ("CH4", .num (dget d "CH4" 0)),
         ("Propane", .num (dget d "Propane" 0)),
         ("Butane", .num (dget d "Butane" 0)),
         ("H2", .num (dget d "H2" 0)),
         ("heartRate", .num (dget d "heartRate" (-1))),
         ("spo2", .num (dget d "spo2" (-1))),
         ("temperature", .num (dget d "temperature" (-1))),
         ("humidity", .num (dget d "humidity" (-1))),
         ("GSR", .num (dget d "GSR" 0)),
         ("stress", .num (dget d "stress" 0)),
         ("lat", .num (dget d "lat" 0)),
         ("lon", .num (dget d "lon" 0)),
         ("alt", .num (dget d "alt" 0)),
         ("sat", .num (dget d "sat" 0)),
         ("timestamp", .time now)]
  ∧ List.lookup "heartRate" (add_gas_data s now d).gas_sensors.latest
      = some (.num (dget d "heartRate" (-1)))
  ∧ List.lookup "timestamp" (add_gas_data s now d).gas_sensors.latest
      = some (.time now)
  ∧ (add_gas_data s now d).gps_data.latest
      = [("lat", .num (dget d "lat" 0)), ("lon", .num (dget d "lon" 0)),
         ("alt", .num (dget d "alt" 0)), ("sat", .num (dget d "sat" 0))]
  ∧ List.lookup "timestamp" (add_gas_data s now d).gps_data.latest = none
  ∧ groupLatest (add_gas_data s now d) GroupName.health = none
  ∧ groupLatest (add_gas_data s now d) GroupName.environmental = none :=
  ⟨rfl, rfl, rfl, rfl, rfl, rfl, rfl⟩

/-- C3: lockstep-length invariant — for every channel group, after every
finite sequence of append calls starting from the initial empty store,
the length of each named series in that group equals the length of that
group's timestamps sequence (appends extend, and capacity evictions
shrink, all of a group's deques together because every deque has the
same `maxlen` and receives one push per append). -/
theorem lockstep_length_invariant (m : Nat) (ds : List RawData) :
    ((runAppends m ds).gas_sensors.LPG.length
        = (runAppends m ds).gas_sensors.timestamps.length
  ∧ (runAppends m ds).gas_sensors.CH4.length
        = (runAppends m ds).gas_sensors.timestamps.length
  ∧ (runAppends m ds).gas_sensors.Propane.length
        = (runAppends m ds).gas_sensors.timestamps.length
  ∧ (runAppends m ds).gas_sensors.Butane.length
        = (runAppends m ds).gas_sensors.timestamps.length
  ∧ (runAppends m ds).gas_sensors.H2.length
        = (runAppends m ds).gas_sensors.timestamps.length)
  ∧ ((runAppends m ds).health_sensors.heartRate.length
        = (runAppends m ds).health_sensors.timestamps.length
  ∧ (runAppends m ds).health_sensors.spo2.length
        = (runAppends m ds).health_sensors.timestamps.length
  ∧ (runAppends m ds).health_sensors.GSR.length
        = (runAppends m ds).health_sensors.timestamps.length
  ∧ (runAppends m ds).health_sensors.stress.length
        = (runAppends m ds).health_sensors.timestamps.length)
  ∧ ((runAppends m ds).environmental_sensors.temperature.length
        = (runAppends m ds).environmental_sensors.timestamps.length
  ∧ (runAppends m ds).environmental_sensors.humidity.length
        = (runAppends m ds).environmental_sensors.timestamps.length)
  ∧ ((runAppends m ds).gps_data.lat.length
        = (runAppends m ds).gps_data.timestamps.length
  ∧ (runAppends m ds).gps_data.lon.length
        = (runAppends m ds).gps_data.timestamps.length
  ∧ (runAppends m ds).gps_data.alt.length
        = (runAppends m ds).gps_data.timestamps.length
  ∧ (runAppends m ds).gps_data.sat.length
        = (runAppends m ds).gps_data.timestamps.length) := by
  simp [runAppends_gas_timestamps, runAppends_health_timestamps,
    runAppends_environmental_timestamps, runAppends_gps_timestamps,
    runAppends_gas_LPG, runAppends_gas_CH4, runAppends_gas_Propane,
    runAppends_gas_Butane, runAppends_gas_H2, runAppends_health_heartRate,
    runAppends_health_spo2, runAppends_health_GSR, runAppends_health_stress,
    runAppends_environmental_temperature, runAppends_environmental_humidity,
    runAppends_gps_lat, runAppends_gps_lon, runAppends_gps_alt,
    runAppends_gps_sat]

/-- C9: atomic fan-out — every append appends to all four channel groups
in the same call with one and the same timestamp value, so after any
sequence of appends the four groups' timestamps sequences are
element-wise equal, and a single append updates every group's timestamps
deque with the same pushed timestamp (no append touches a strict subset
of the groups). -/
theorem atomic_fanout_timestamps (m now : Nat) (ds : List RawData)
    (s : SensorDataManager) (d : RawData) :
    ((runAppends m ds).gas_sensors.timestamps
        = (runAppends m ds).health_sensors.timestamps
  ∧ (runAppends m ds).gas_sensors.timestamps
        = (runAppends m ds).environmental_sensors.timestamps
  ∧ (runAppends m ds).gas_sensors.timestamps
        = (runAppends m ds).gps_data.timestamps)
  ∧ ((add_gas_data s now d).gas_sensors.timestamps
        = dequeAppend s.max_points s.gas_sensors.timestamps now
  ∧ (add_gas_data s now d).health_sensors.timestamps
        = dequeAppend s.max_points s.health_sensors.timestamps now
  ∧ (add_gas_data s now d).environmental_sensors.timestamps
        = dequeAppend s.max_points s.environmental_sensors.timestamps now
  ∧ (add_gas_data s now d).gps_data.timestamps
        = dequeAppend s.max_points s.gps_data.timestamps now) := by
  refine ⟨⟨?_, ?_, ?_⟩, rfl, rfl, rfl, rfl⟩ <;>
    simp [runAppends_gas_timestamps, runAppends_health_timestamps,
      runAppends_environmental_timestamps, runAppends_gps_timestamps]

/-- C4: bounded FIFO sliding window — with capacity `C`, after `C + k`
sequential appends (`k ≥ 0`) every series has length `min C (C + k) = C`
and contains exactly the values of the most recent `C` appends in
arrival order (the oldest `k` pushed values, and the oldest `k`
timestamps, are evicted); in particular after 150 appends with capacity
100 the timestamp of the 50th append (timestamp 49, counting appends
from 1) is present in no group's timestamps sequence. -/
theorem bounded_fifo_window (C k : Nat) (ds : List RawData)
    (h : ds.length = C + k) :
    ((runAppends C ds).gas_sensors.timestamps.length = min C (C + k)
  ∧ (runAppends C ds).gas_sensors.LPG.length = min C (C + k)
  ∧ (runAppends C ds).gas_sensors.CH4.length = min C (C + k)
  ∧ (runAppends C ds).gas_sensors.Propane.length = min C (C + k)
  ∧ (runAppends C ds).gas_sensors.Butane.length = min C (C + k)
  ∧ (runAppends C ds).gas_sensors.H2.length = min C (C + k)
  ∧ (runAppends C ds).health_sensors.timestamps.length = min C (C + k)
  ∧ (runAppends C ds).health_sensors.heartRate.length = min C (C + k)
  ∧ (runAppends C ds).health_sensors.spo2.length = min C (C + k)
  ∧ (runAppends C ds).health_sensors.GSR.length = min C (C + k)
  ∧ (runAppends C ds).health_sensors.stress.length = min C (C + k)
  ∧ (runAppends C ds).environmental_sensors.timestamps.length = min C (C + k)
  ∧ (runAppends C ds).environmental_sensors.temperature.length = min C (C + k)
  ∧ (runAppends C ds).environmental_sensors.humidity.length = min C (C + k)
  ∧ (runAppends C ds).gps_data.timestamps.length = min C (C + k)
  ∧ (runAppends C ds).gps_data.lat.length = min C (C + k)
  ∧ (runAppends C ds).gps_data.lon.length = min C (C + k)
  ∧ (runAppends C ds).gps_data.alt.length = min C (C + k)
  ∧ (runAppends C ds).gps_data.sat.length = min C (C + k))
  ∧ ((runAppends C ds).gas_sensors.timestamps = (List.range (C + k)).drop k
  ∧ (runAppends C ds).health_sensors.timestamps = (List.range (C + k)).drop k
  ∧ (runAppends C ds).environmental_sensors.timestamps = (List.range (C + k)).drop k
  ∧ (runAppends C ds).gps_data.timestamps = (List.range (C + k)).drop k
  ∧ (runAppends C ds).gas_sensors.LPG = (ds.map fun d => dget d "LPG" 0).drop k
  ∧ (runAppends C ds).gas_sensors.CH4 = (ds.map fun d => dget d "CH4" 0).drop k
  ∧ (runAppends C ds).gas_sensors.Propane
        = (ds.map fun d => dget d "Propane" 0).drop k
  ∧ (runAppends C ds).gas_sensors.Butane
        = (ds.map fun d => dget d "Butane" 0).drop k
  ∧ (runAppends C ds).gas_sensors.H2 = (ds.map fun d => dget d "H2" 0).drop k
  ∧ (runAppends C ds).health_sensors.heartRate
        = (ds.map fun d =>
            if dget d "heartRate" (-1) ≠ -1 then some (dget d "heartRate" (-1))
            else none).drop k
  ∧ (runAppends C ds).health_sensors.spo2
        = (ds.map fun d =>
            if dget d "spo2" (-1) ≠ -1 then some (dget d "spo2" (-1))
            else none).drop k
  ∧ (runAppends C ds).health_sensors.GSR = (ds.map fun d => dget d "GSR" 0).drop k
  ∧ (runAppends C ds).health_sensors.stress
        = (ds.map fun d => dget d "stress" 0).drop k
  ∧ (runAppends C ds).environmental_sensors.temperature
        = (ds.map fun d =>
            if dget d "temperature" (-1) ≠ -1 then some (dget d "temperature" (-1))
            else none).drop k
  ∧ (runAppends C ds).environmental_sensors.humidity
        = (ds.map fun d =>
            if dget d "humidity" (-1) ≠ -1 then some (dget d "humidity" (-1))
            else none).drop k
  ∧ (runAppends C ds).gps_data.lat = (ds.map fun d => dget d "lat" 0).drop k
  ∧ (runAppends C ds).gps_data.lon = (ds.map fun d => dget d "lon" 0).drop k
  ∧ (runAppends C ds).gps_data.alt = (ds.map fun d => dget d "alt" 0).drop k
  ∧ (runAppends C ds).gps_data.sat = (ds.map fun d => dget d "sat" 0).drop k)
  ∧ (C = 100 → k = 50 →
      ¬ 49 ∈ (runAppends C ds).gas_sensors.timestamps
    ∧ ¬ 49 ∈ (runAppends C ds).health_sensors.timestamps
    ∧ ¬ 49 ∈ (runAppends C ds).environmental_sensors.timestamps
    ∧ ¬ 49 ∈ (runAppends C ds).gps_data.timestamps) := by
  have hk : ds.length - C = k := by omega
  refine ⟨?_, ?_, ?_⟩
  · simp only [runAppends_gas_timestamps, runAppends_health_timestamps,
      runAppends_environmental_timestamps, runAppends_gps_timestamps,
      runAppends_gas_LPG, runAppends_gas_CH4, runAppends_gas_Propane,
      runAppends_gas_Butane, runAppends_gas_H2, runAppends_health_heartRate,
      runAppends_health_spo2, runAppends_health_GSR, runAppends_health_stress,
      runAppends_environmental_temperature, runAppends_environmental_humidity,
      runAppends_gps_lat, runAppends_gps_lon, runAppends_gps_alt,
      runAppends_gps_sat, List.length_drop, List.length_map,
      List.length_range, hk, h]
    omega
  · simp [runAppends_gas_timestamps, runAppends_health_timestamps,
      runAppends_environmental_timestamps, runAppends_gps_timestamps,
      runAppends_gas_LPG, runAppends_gas_CH4, runAppends_gas_Propane,
      runAppends_gas_Butane, runAppends_gas_H2, runAppends_health_heartRate,
      runAppends_health_spo2, runAppends_health_GSR, runAppends_health_stress,
      runAppends_environmental_temperature, runAppends_environmental_humidity,
      runAppends_gps_lat, runAppends_gps_lon, runAppends_gps_alt,
      runAppends_gps_sat, h, Nat.add_sub_cancel_left]
  · intro hC hk50
    subst hC
    subst hk50
    refine ⟨?_, ?_, ?_, ?_⟩
    · rw [runAppends_gas_timestamps, h]
      decide
    · rw [runAppends_health_timestamps, h]
      decide
    · rw [runAppends_environmental_timestamps, h]
      decide
    · rw [runAppends_gps_timestamps, h]
      decide

/-- Witness for C4 at a concrete capacity and batch: capacity 2, three
appends, so the oldest append is evicted and the gas timestamps deque
holds exactly the last two timestamps. -/
theorem bounded_fifo_window_witness :
    (runAppends 2 [[("LPG", 5)], [], [("lat", 3)]]).gas_sensors.timestamps
      = [1, 2] :=
  (bounded_fifo_window 2 1 [[("LPG", 5)], [], [("lat", 3)]] (by decide)).2.1.1

/-- C5: absence-normalization asymmetry — for exactly the fields
heartRate, spo2, temperature and humidity, an append whose input is
missing the field or carries the sentinel (`-1` / `-1.0`; with
`data.get(field, -1)` both cases are exactly `dget d field (-1) = -1`)
stores the explicit absent marker `None` as the newest windowed entry of
that series while the gas group's latest record receives the raw
sentinel value; a non-sentinel value is stored as itself; and all other
fields (gas concentrations, GSR, stress, GPS fields) store the raw
decoded value in the window unconditionally, zero included, with no
absence concept. -/
theorem absence_normalization_asymmetry (s : SensorDataManager) (now : Nat)
    (d : RawData) (hm : 0 < s.max_points) :
    (dget d "heartRate" (-1) = -1
      → (add_gas_data s now d).health_sensors.heartRate.getLast? = some none)
  ∧ (dget d "heartRate" (-1) ≠ -1
      → (add_gas_data s now d).health_sensors.heartRate.getLast?
          = some (some (dget d "heartRate" (-1))))
  ∧ List.lookup "heartRate" (add_gas_data s now d).gas_sensors.latest
      = some (.num (dget d "heartRate" (-1)))
  ∧ (dget d "spo2" (-1) = -1
      → (add_gas_data s now d).health_sensors.spo2.getLast? = some none)
  ∧ (dget d "spo2" (-1) ≠ -1
      → (add_gas_data s now d).health_sensors.spo2.getLast?
          = some (some (dget d "spo2" (-1))))
  ∧ List.lookup "spo2" (add_gas_data s now d).gas_sensors.latest
      = some (.num (dget d "spo2" (-1)))
  ∧ (dget d "temperature" (-1) = -1
      → (add_gas_data s now d).environmental_sensors.temperature.getLast?
          = some none)
  ∧ (dget d "temperature" (-1) ≠ -1
      → (add_gas_data s now d).environmental_sensors.temperature.getLast?
          = some (some (dget d "temperature" (-1))))
  ∧ List.lookup "temperature" (add_gas_data s now d).gas_sensors.latest
      = some (.num (dget d "temperature" (-1)))
  ∧ (dget d "humidity" (-1) = -1
      → (add_gas_data s now d).environmental_sensors.humidity.getLast? = some none)
  ∧ (dget d "humidity" (-1) ≠ -1
      → (add_gas_data s now d).environmental_sensors.humidity.getLast?
          = some (some (dget d "humidity" (-1))))
  ∧ List.lookup "humidity" (add_gas_data s now d).gas_sensors.latest
      = some (.num (dget d "humidity" (-1)))
  ∧ (add_gas_data s now d).health_sensors.GSR.getLast? = some (dget d "GSR" 0)
  ∧ (add_gas_data s now d).health_sensors.stress.getLast? = some (dget d "stress" 0)
  ∧ (add_gas_data s now d).gas_sensors.LPG.getLast? = some (dget d "LPG" 0)
  ∧ (add_gas_data s now d).gas_sensors.CH4.getLast? = some (dget d "CH4" 0)
  ∧ (add_gas_data s now d).gas_sensors.Propane.getLast? = some (dget d "Propane" 0)
  ∧ (add_gas_data s now d).gas_sensors.Butane.getLast? = some (dget d "Butane" 0)
  ∧ (add_gas_data s now d).gas_sensors.H2.getLast? = some (dget d "H2" 0)
  ∧ (add_gas_data s now d).gps_data.lat.getLast? = some (dget d "lat" 0)
  ∧ (add_gas_data s now d).gps_data.lon.getLast? = some (dget d "lon" 0)
  ∧ (add_gas_data s now d).gps_data.alt.getLast? = some (dget d "alt" 0)
  ∧ (add_gas_data s now d).gps_data.sat.getLast? = some (dget d "sat" 0) := by
  refine ⟨?_, ?_, rfl, ?_, ?_, rfl, ?_, ?_, rfl, ?_, ?_, rfl,
    ?_, ?_, ?_, ?_, ?_, ?_, ?_, ?_, ?_, ?_, ?_⟩
  · intro hsent
    simp [add_gas_data, hsent, dequeAppend_getLast s.max_points hm]
  · intro hne
    simp [add_gas_data, hne, dequeAppend_getLast s.max_points hm]
  · intro hsent
    simp [add_gas_data, hsent, dequeAppend_getLast s.max_points hm]
  · intro hne
    simp [add_gas_data, hne, dequeAppend_getLast s.max_points hm]
  · intro hsent
    simp [add_gas_data, hsent, dequeAppend_getLast s.max_points hm]
  · intro hne
    simp [add_gas_data, hne, dequeAppend_getLast s.max_points hm]
  · intro hsent
    simp [add_gas_data, hsent, dequeAppend_getLast s.max_points hm]
  · intro hne
    simp [add_gas_data, hne, dequeAppend_getLast s.max_points hm]
  all_goals simp [add_gas_data, dequeAppend_getLast s.max_points hm]

/-- Witness for C5 at a concrete input: appending a reading carrying the
heartRate sentinel `-1` into a fresh store of capacity 100 stores the
absent marker `None` as the newest windowed heartRate entry. -/
theorem absence_normalization_asymmetry_witness :
    (add_gas_data (SensorDataManager.init 100) 0
        [("heartRate", -1)]).health_sensors.heartRate.getLast?
      = some Option.none :=
  (absence_normalization_asymmetry (SensorDataManager.init 100) 0
    [("heartRate", -1)] (by decide)).1 (by decide)

/-- C8: for every input mapping, including the empty one, append
succeeds (it is a total operation: `data.get` supplies a default for
every recognized field) and advances every series in every group by one
entry — the length of each deque becomes `min (old + 1) capacity` and
the newest entry carries the documented per-field default.  In
particular appending `{"LPG": 1.0}` gives the gas series `LPG = 1.0` and
`0.0` for the other gas fields, absent markers in the windowed
heartRate, spo2, temperature and humidity series, and
`latest.heartRate = -1`, `latest.spo2 = -1` in the (gas) latest
record. -/
theorem append_total_with_defaults (s : SensorDataManager) (now : Nat)
    (hm : 0 < s.max_points) :
    (∀ d : RawData,
        (add_gas_data s now d).gas_sensors.timestamps.length
            = min (s.gas_sensors.timestamps.length + 1) s.max_points
      ∧ (add_gas_data s now d).gas_sensors.LPG.length
            = min (s.gas_sensors.LPG.length + 1) s.max_points
      ∧ (add_gas_data s now d).gas_sensors.CH4.length
            = min (s.gas_sensors.CH4.length + 1) s.max_points
      ∧ (add_gas_data s now d).gas_sensors.Propane.length
            = min (s.gas_sensors.Propane.length + 1) s.max_points
      ∧ (add_gas_data s now d).gas_sensors.Butane.length
            = min (s.gas_sensors.Butane.length + 1) s.max_points
      ∧ (add_gas_data s now d).gas_sensors.H2.length
            = min (s.gas_sensors.H2.length + 1) s.max_points
      ∧ (add_gas_data s now d).health_sensors.timestamps.length
            = min (s.health_sensors.timestamps.length + 1) s.max_points
      ∧ (add_gas_data s now d).health_sensors.heartRate.length
            = min (s.health_sensors.heartRate.length + 1) s.max_points
      ∧ (add_gas_data s now d).health_sensors.spo2.length
            = min (s.health_sensors.spo2.length + 1) s.max_points
      ∧ (add_gas_data s now d).health_sensors.GSR.length
            = min (s.health_sensors.GSR.length + 1) s.max_points
      ∧ (add_gas_data s now d).health_sensors.stress.length
            = min (s.health_sensors.stress.length + 1) s.max_points
      ∧ (add_gas_data s now d).environmental_sensors.timestamps.length
            = min (s.environmental_sensors.timestamps.length + 1) s.max_points
      ∧ (add_gas_data s now d).environmental_sensors.temperature.length
            = min (s.environmental_sensors.temperature.length + 1) s.max_points
      ∧ (add_gas_data s now d).environmental_sensors.humidity.length
            = min (s.environmental_sensors.humidity.length + 1) s.max_points
      ∧ (add_gas_data s now d).gps_data.timestamps.length
            = min (s.gps_data.timestamps.length + 1) s.max_points
      ∧ (add_gas_data s now d).gps_data.lat.length
            = min (s.gps_data.lat.length + 1) s.max_points
      ∧ (add_gas_data s now d).gps_data.lon.length
            = min (s.gps_data.lon.length + 1) s.max_points
      ∧ (add_gas_data s now d).gps_data.alt.length
            = min (s.gps_data.alt.length + 1) s.max_points
      ∧ (add_gas_data s now d).gps_data.sat.length
            = min (s.gps_data.sat.length + 1) s.max_points)
  ∧ ((add_gas_data s now []).gas_sensors.timestamps.getLast? = some now
      ∧ (add_gas_data s now []).gas_sensors.LPG.getLast? = some 0
      ∧ (add_gas_data s now []).gas_sensors.CH4.getLast? = some 0
      ∧ (add_gas_data s now []).gas_sensors.Propane.getLast? = some 0
      ∧ (add_gas_data s now []).gas_sensors.Butane.getLast? = some 0
      ∧ (add_gas_data s now []).gas_sensors.H2.getLast? = some 0
      ∧ (add_gas_data s now []).health_sensors.timestamps.getLast? = some now
      ∧ (add_gas_data s now []).health_sensors.heartRate.getLast? = some none
      ∧ (add_gas_data s now []).health_sensors.spo2.getLast? = some none
      ∧ (add_gas_data s now []).health_sensors.GSR.getLast? = some 0
      ∧ (add_gas_data s now []).health_sensors.stress.getLast? = some 0
      ∧ (add_gas_data s now []).environmental_sensors.timestamps.getLast? = some now
      ∧ (add_gas_data s now []).environmental_sensors.temperature.getLast? = some none
      ∧ (add_gas_data s now []).environmental_sensors.humidity.getLast? = some none
      ∧ (add_gas_data s now []).gps_data.timestamps.getLast? = some now
      ∧ (add_gas_data s now []).gps_data.lat.getLast? = some 0
      ∧ (add_gas_data s now []).gps_data.lon.getLast? = some 0
      ∧ (add_gas_data s now []).gps_data.alt.getLast? = some 0
      ∧ (add_gas_data s now []).gps_data.sat.getLast? = some 0)
  ∧ ((add_gas_data s now [("LPG", 1)]).gas_sensors.LPG.getLast? = some 1
      ∧ (add_gas_data s now [("LPG", 1)]).gas_sensors.CH4.getLast? = some 0
      ∧ (add_gas_data s now [("LPG", 1)]).gas_sensors.Propane.getLast? = some 0
      ∧ (add_gas_data s now [("LPG", 1)]).gas_sensors.Butane.getLast? = some 0
      ∧ (add_gas_data s now [("LPG", 1)]).gas_sensors.H2.getLast? = some 0
      ∧ (add_gas_data s now [("LPG", 1)]).health_sensors.heartRate.getLast?
          = some none
      ∧ (add_gas_data s now [("LPG", 1)]).health_sensors.spo2.getLast? = some none
      ∧ (add_gas_data s now
          [("LPG", 1)]).environmental_sensors.temperature.getLast? = some none
      ∧ (add_gas_data s now [("LPG", 1)]).environmental_sensors.humidity.getLast?
          = some none
      ∧ List.lookup "heartRate"
          (add_gas_data s now [("LPG", 1)]).gas_sensors.latest = some (.num (-1))
      ∧ List.lookup "spo2"
          (add_gas_data s now [("LPG", 1)]).gas_sensors.latest
          = some (.num (-1))) := by
  refine ⟨?_, ?_, ?_⟩
  · intro d
    simp [add_gas_data, dequeAppend_length]
  · simp [add_gas_data, dequeAppend_getLast s.max_points hm, dget]
  · refine ⟨?_, ?_, ?_, ?_, ?_, ?_, ?_, ?_, ?_, rfl, rfl⟩ <;>
      · simp only [add_gas_data]
        rw [dequeAppend_getLast _ hm]
        decide

/-- Witness for C8 at a concrete store: appending the empty reading to a
fresh store of capacity 100 pushes the absent marker as the newest
windowed heartRate entry. -/
theorem append_total_with_defaults_witness :
    (add_gas_data (SensorDataManager.init 100) 0
        []).health_sensors.heartRate.getLast? = some Option.none :=
  (append_total_with_defaults (SensorDataManager.init 100) 0
    (by decide)).2.1.2.2.2.2.2.2.2.1

end MineArmour
